import Mathlib

/-!
Verification of the videoSummaryGo chunked transcription pipeline.

This file gives a shallow embedding (in Lean 4) of the orchestration logic of
src/main.go and proves or refutes the frozen claims about it.  Pure
computations (chunk counting, retry loop, result collection, prompt
construction, extension filtering) are translated directly from the Go source;
effectful parts (subprocess calls, the remote generative service, the file
system) are modelled by passing their outcomes in explicitly as environment
values and recording the side effects the claims talk about (file appends,
artifact deletions, error-channel sends) as explicit event traces.
Machine floats of the source are idealized as rationals; every concrete
counterexample below uses values (such as 10.5 and 0.5) on which float64
arithmetic agrees exactly with rational arithmetic.
-/

namespace VideoSummaryGo

/-! ## Segmenter (chunkVideo, src/main.go lines 374-432) -/

/-- Go conversion of a floating value to int truncates toward zero: floor
for nonnegative values, ceiling for negative ones. Durations in the program
are nonnegative. -/
def goTrunc (x : ℚ) : ℤ :=
  if 0 ≤ x then ⌊x⌋ else ⌈x⌉

/-- Chunk count computed by chunkVideo (lines 398-401):
numChunks := int(duration / float64(chunkDuration));
if int(duration) % chunkDuration != 0 then numChunks++ .
Go's % on ints is truncated modulo, hence Int.tmod. -/
def numChunks (duration : ℚ) (chunkDuration : ℤ) : ℤ :=
  let base := goTrunc (duration / (chunkDuration : ℚ))
  if Int.tmod (goTrunc duration) chunkDuration ≠ 0 then base + 1 else base

/-- ChunkData struct (lines 28-35). Go ints that are always nonnegative in
the program (chunk number, video index) are modelled as Nat. -/
structure ChunkData where
  videoPath : String
  audioPath : String
  chunkNum : Nat
  err : Option String
  videoIndex : Nat
  baseName : String
deriving DecidableEq, Repr

/-- The ordered chunk list materialized by the loop of chunkVideo
(lines 405-429): chunk i gets paths
tempDir/chunk_i_video_videoIndex.{mp4,wav} and ChunkNum = i.
The Err field is never set by chunkVideo (a failing ffmpeg call returns an
error instead of a chunk). -/
def chunkVideoChunks (duration : ℚ) (chunkDuration : ℤ) (videoIndex : Nat)
    (baseName tempDir : String) : List ChunkData :=
  (List.range (numChunks duration chunkDuration).toNat).map fun i =>
    { videoPath := tempDir ++ "/chunk_" ++ toString i ++ "_video_" ++ toString videoIndex ++ ".mp4"
      audioPath := tempDir ++ "/chunk_" ++ toString i ++ "_video_" ++ toString videoIndex ++ ".wav"
      chunkNum := i
      err := none
      videoIndex := videoIndex
      baseName := baseName }

/-! ## RetryingCaller (sentLlmPrompt, src/main.go lines 328-371) -/

/-- One part of a remote-model response content; only text parts are
extracted, any other part kind is skipped. -/
inductive LlmPart where
  | text (s : String)
  | other
deriving DecidableEq, Repr

/-- A remote response: candidates, each with an optional content holding a
list of parts (resp.Candidates, c.Content, c.Content.Parts). -/
def LlmResponse := List (Option (List LlmPart))

/-- Concatenation of all text parts of a response, exactly as the nested
loops of sentLlmPrompt build llmResponse (lines 343-356). -/
def extractText (resp : LlmResponse) : String :=
  resp.foldl
    (fun acc c =>
      match c with
      | none => acc
      | some parts =>
          parts.foldl
            (fun acc2 p =>
              match p with
              | LlmPart.text s => acc2 ++ s
              | LlmPart.other => acc2)
            acc)
    ""

/-- maxRetries constant (line 329). The fixed inter-attempt delay
(retryDelay, 30 s) is modelled by counting sleeps rather than by real time. -/
def maxRetries : Nat := 5

/-- Body of the retry loop of sentLlmPrompt. The generator gives the outcome
of the remote call at each 0-based attempt index (none = error). Returns
(result, number of attempts made, number of sleeps taken). Fuel is the
number of loop iterations still allowed; the loop runs for
attempt = 0..maxRetries, so fuel starts at maxRetries+1 and never reaches 0
before the loop returns. The per-part write to the optional sink file is not
modelled (no claim mentions it); all other control flow is mirrored. -/
def attemptLoop (gen : Nat → Option LlmResponse) (attempt : Nat) : Nat → String × Nat × Nat
  | 0 => ("", 0, 0)
  | fuel + 1 =>
    match gen attempt with
    | some resp => (extractText resp, 1, 0)
    | none =>
        if attempt < maxRetries then
          let r := attemptLoop gen (attempt + 1) fuel
          (r.1, r.2.1 + 1, r.2.2 + 1)
        else ("", 1, 0)

/-- sentLlmPrompt: run the retry loop from attempt 0. -/
def sentLlmPrompt (gen : Nat → Option LlmResponse) : String × Nat × Nat :=
  attemptLoop gen 0 (maxRetries + 1)

/-! ## OCRWorkerPool (TranscribeVideoTesseractAPI, src/main.go lines 502-621) -/

/-- The message one frame worker sends on the frameResults channel: either
recognized text, or an error (from open/decode/encode/temp-file/OCR). Every
worker sends exactly one message. -/
structure FrameMsg where
  text : String
  error : Option String
deriving DecidableEq, Repr

/-- Concatenation of a list of strings (used to state what the collection
loop of the pool produces). -/
def concatStrings : List String → String
  | [] => ""
  | s :: rest => s ++ concatStrings rest

/-- TranscribeVideoTesseractAPI, collection phase (lines 611-620): the input
list is the channel contents in completion order; failed frames are logged
and skipped, each successful text is appended followed by a newline; the
function always returns a nil error (line 620). -/
def TranscribeVideoTesseractAPI (msgs : List FrameMsg) : String × Option String :=
  (msgs.foldl
    (fun acc m =>
      match m.error with
      | some _ => acc
      | none => acc ++ m.text ++ "\n")
    "", none)

/-! ## ScreenTextExtractor (transcribeVideoLLM, src/main.go lines 624-679) -/

/-- Environment for one transcribeVideoLLM call: outcome of the remote
upload, outcomes of the retry-governed prompt attempts, outcome of
extractFrames (error message, or the list of frame paths found), and the
completion-order per-frame OCR results used when the fallback runs. -/
structure LlmVideoEnv where
  videoIndex : Nat
  chunkNum : Nat
  uploadOk : Bool
  promptGen : Nat → Option LlmResponse
  extract : Except String (List String)
  ocrMsgs : List FrameMsg

/-- Side effects of one transcribeVideoLLM call that the claims talk about:
how many times the OCR fallback path was entered, whether the extracted
frames scratch directory was removed by the post-OCR cleanup
(os.RemoveAll(filepath.Dir(framePaths[0])), guarded by len(framePaths) > 0),
and how many times the uploaded remote artifact was deleted
(client.DeleteFile, registered by defer after a successful upload). -/
structure ScreenTrace where
  fallbackRuns : Nat
  framesDirRemoved : Bool
  deleteFileCalls : Nat
deriving DecidableEq, Repr

/-- Error wrapper of lines 631 and 663. -/
def extractFramesErrMsg (videoIndex chunkNum : Nat) (e : String) : String :=
  "error extracting frames for video " ++ toString videoIndex ++ " chunk "
    ++ toString chunkNum ++ ": " ++ e

/-- Error wrapper of lines 635 and 671. -/
def tesseractErrMsg (videoIndex chunkNum : Nat) (e : String) : String :=
  "error transcribing frames with Tesseract for video " ++ toString videoIndex
    ++ " chunk " ++ toString chunkNum ++ ": " ++ e

/-- transcribeVideoLLM. Mirrors the source exactly, including the different
orderings at the two fallback sites: in the upload-failure branch
(lines 629-642) the Tesseract error is checked before the frames directory
cleanup, in the empty-prompt branch (lines 661-673) the cleanup runs before
the error check. The 60 s activation sleep is not modelled (no claim
mentions real time). -/
def transcribeVideoLLM (env : LlmVideoEnv) : Except String String × ScreenTrace :=
  if env.uploadOk then
    -- defer client.DeleteFile: every return path below counts one delete.
    let videoTranscript := (sentLlmPrompt env.promptGen).1
    if videoTranscript = "" then
      match env.extract with
      | Except.error e =>
          (Except.error (extractFramesErrMsg env.videoIndex env.chunkNum e),
           ⟨1, false, 1⟩)
      | Except.ok framePaths =>
          let r := TranscribeVideoTesseractAPI env.ocrMsgs
          let removed := !framePaths.isEmpty
          match r.2 with
          | some e =>
              (Except.error (tesseractErrMsg env.videoIndex env.chunkNum e),
               ⟨1, removed, 1⟩)
          | none => (Except.ok r.1, ⟨1, removed, 1⟩)
    else (Except.ok videoTranscript, ⟨0, false, 1⟩)
  else
    match env.extract with
    | Except.error e =>
        (Except.error (extractFramesErrMsg env.videoIndex env.chunkNum e),
         ⟨1, false, 0⟩)
    | Except.ok framePaths =>
        let r := TranscribeVideoTesseractAPI env.ocrMsgs
        match r.2 with
        | some e =>
            (Except.error (tesseractErrMsg env.videoIndex env.chunkNum e),
             ⟨1, false, 0⟩)
        | none => (Except.ok r.1, ⟨1, !framePaths.isEmpty, 0⟩)

/-! ## ChunkPipeline (processChunk, src/main.go lines 682-734)

The two per-chunk goroutines are modelled as fixed event sequences; the
concurrency between them is an arbitrary interleaving of the two sequences.
fmt.Fprintf failures only push a message on the error channel and change no
control flow, so file writes are modelled as succeeding. -/

/-- Observable events of chunk processing: a send on the shared error
channel, an append of one chunk entry (header indices plus transcript text)
to the audio or the screen-text transcript file, and an os.Remove of a
scratch artifact. -/
inductive Event where
  | errSend (msg : String)
  | audioAppend (videoIndex chunkNum : Nat) (text : String)
  | videoAppend (videoIndex chunkNum : Nat) (text : String)
  | removeFile (path : String)
deriving DecidableEq, Repr

/-- Placeholder transcript written when whisper fails (line 703). -/
def audioPlaceholder (videoIndex chunkNum : Nat) : String :=
  "Audio transcription failed for video " ++ toString videoIndex ++ " chunk "
    ++ toString chunkNum ++ "."

/-- Placeholder transcript written when screen-text extraction fails
(line 721). -/
def videoPlaceholder (videoIndex chunkNum : Nat) : String :=
  "Video transcription failed for video " ++ toString videoIndex ++ " chunk "
    ++ toString chunkNum ++ "."

/-- Error wrapper of line 702. -/
def audioTaskErrMsg (videoIndex chunkNum : Nat) (e : String) : String :=
  "error transcribing audio for video " ++ toString videoIndex ++ " chunk "
    ++ toString chunkNum ++ ": " ++ e

/-- Error wrapper of line 720. -/
def videoTaskErrMsg (videoIndex chunkNum : Nat) (e : String) : String :=
  "error transcribing video for video " ++ toString videoIndex ++ " chunk "
    ++ toString chunkNum ++ ": " ++ e

/-- Events of the audio goroutine (lines 698-712), in program order: on a
transcription error, send on the error channel and substitute the
placeholder; then append the chunk entry to the audio transcript file; then
os.Remove the chunk audio artifact - unconditionally. -/
def audioTaskEvents (c : ChunkData) : Except String String → List Event
  | Except.ok t =>
      [Event.audioAppend c.videoIndex c.chunkNum t, Event.removeFile c.audioPath]
  | Except.error e =>
      [Event.errSend (audioTaskErrMsg c.videoIndex c.chunkNum e),
       Event.audioAppend c.videoIndex c.chunkNum (audioPlaceholder c.videoIndex c.chunkNum),
       Event.removeFile c.audioPath]

/-- Events of the screen-text goroutine (lines 716-730), symmetric to the
audio goroutine, writing to the screen-text transcript file and removing the
chunk video artifact. -/
def videoTaskEvents (c : ChunkData) : Except String String → List Event
  | Except.ok t =>
      [Event.videoAppend c.videoIndex c.chunkNum t, Event.removeFile c.videoPath]
  | Except.error e =>
      [Event.errSend (videoTaskErrMsg c.videoIndex c.chunkNum e),
       Event.videoAppend c.videoIndex c.chunkNum (videoPlaceholder c.videoIndex c.chunkNum),
       Event.removeFile c.videoPath]

/-- An interleaving of two event sequences, preserving the order within
each: the possible overall schedules of two concurrent tasks. -/
inductive Interleave : List Event → List Event → List Event → Prop
  | nil : Interleave [] [] []
  | left {x xs ys zs} : Interleave xs ys zs → Interleave (x :: xs) ys (x :: zs)
  | right {y xs ys zs} : Interleave xs ys zs → Interleave xs (y :: ys) (y :: zs)

/-- Outcomes of the two transcription calls of one chunk. -/
structure ChunkOutcome where
  aRes : Except String String
  vRes : Except String String

/-- processChunk: if the chunk carries an error it is forwarded and nothing
else happens (lines 685-688); otherwise the observable trace is some
interleaving of the two goroutines' event sequences, and processChunk
returns only after both finished (wg.Wait, line 732). -/
def ChunkRun (c : ChunkData) (o : ChunkOutcome) (evs : List Event) : Prop :=
  match c.err with
  | some e => evs = [Event.errSend e]
  | none => Interleave (audioTaskEvents c o.aRes) (videoTaskEvents c o.vRes) evs

/-- The sequential chunk loop of VideoSummary (lines 842-844): chunk i+1's
trace strictly follows chunk i's, because processChunk joins both goroutines
before returning. -/
inductive VideoRun : List (ChunkData × ChunkOutcome) → List Event → Prop
  | nil : VideoRun [] []
  | cons {c o cs evs rest} : ChunkRun c o evs → VideoRun cs rest →
      VideoRun ((c, o) :: cs) (evs ++ rest)

/-- The chunk entries appended to the audio transcript file, in file order. -/
def audioAppends (evs : List Event) : List (Nat × Nat × String) :=
  evs.filterMap fun e =>
    match e with
    | Event.audioAppend i c t => some (i, c, t)
    | _ => none

/-- The chunk entries appended to the screen-text transcript file, in file
order. -/
def videoAppends (evs : List Event) : List (Nat × Nat × String) :=
  evs.filterMap fun e =>
    match e with
    | Event.videoAppend i c t => some (i, c, t)
    | _ => none

/-- The transcript text the audio task appends for a chunk: the transcript
on success, the placeholder on failure. -/
def audioEntryText (c : ChunkData) : Except String String → String
  | Except.ok t => t
  | Except.error _ => audioPlaceholder c.videoIndex c.chunkNum

/-- The transcript text the screen-text task appends for a chunk. -/
def videoEntryText (c : ChunkData) : Except String String → String
  | Except.ok t => t
  | Except.error _ => videoPlaceholder c.videoIndex c.chunkNum

/-! ## VideoOrchestrator / BatchDriver (VideoSummary, src/main.go lines 736-907) -/

/-- Per-video environment: which of the effectful per-video steps succeed.
chunkResult is the outcome of chunkVideo (number of chunks on success). -/
structure VideoEnv where
  createOutputOk : Bool
  createAudioOk : Bool
  createVideoOk : Bool
  chunkResult : Except String Nat
  readAudioOk : Bool
  readVideoOk : Bool

/-- How handling of one video ends. fatal: log.Fatalf was reached, which
terminates the whole process with a non-zero status. skip: a logged error
followed by continue to the next video. done: the video was fully
processed. -/
inductive VideoStepResult where
  | fatal
  | skip
  | done
deriving DecidableEq, Repr

/-- Result of the per-video loop body: its exit kind, how many of the three
output files were created before it ended, and how many chunks were
processed. -/
structure VideoStep where
  status : VideoStepResult
  filesCreated : Nat
  chunksProcessed : Nat
deriving DecidableEq, Repr

/-- One iteration of the per-video loop (lines 795-897).  os.Create failure
for any of the three output files hits log.Fatalf (lines 810, 817, 824) -
the continue statements after them are unreachable.  A chunkVideo error is
logged and skips to the next video (line 835), as does a failure reading
back either transcript file (lines 851-857). -/
def processOneVideo (env : VideoEnv) : VideoStep :=
  if env.createOutputOk = false then ⟨VideoStepResult.fatal, 0, 0⟩
  else if env.createAudioOk = false then ⟨VideoStepResult.fatal, 1, 0⟩
  else if env.createVideoOk = false then ⟨VideoStepResult.fatal, 2, 0⟩
  else
    match env.chunkResult with
    | Except.error _ => ⟨VideoStepResult.skip, 3, 0⟩
    | Except.ok n =>
        if env.readAudioOk = false then ⟨VideoStepResult.skip, 3, n⟩
        else if env.readVideoOk = false then ⟨VideoStepResult.skip, 3, n⟩
        else ⟨VideoStepResult.done, 3, n⟩

/-- The loop over all discovered videos. Returns the steps of the videos
that were reached and whether the process exited through log.Fatalf (in
which case the remaining videos are never processed). -/
def runVideos : List VideoEnv → List VideoStep × Bool
  | [] => ([], false)
  | env :: rest =>
      let s := processOneVideo env
      match s.status with
      | VideoStepResult.fatal => ([s], true)
      | _ =>
          let r := runVideos rest
          (s :: r.1, r.2)

/-- path/filepath.Ext on the reversed character list: scan from the end of
the path, stop at a path separator, return from the final dot. -/
def extFromRev (acc : List Char) : List Char → String
  | [] => ""
  | ch :: rest =>
      if ch = '/' then ""
      else if ch = '.' then String.mk ('.' :: acc)
      else extFromRev (ch :: acc) rest

/-- path/filepath.Ext: the suffix beginning at the final dot in the final
element of the path, empty if there is none. -/
def filepathExt (path : String) : String :=
  extFromRev [] path.data.reverse

/-- IsVideoFile (lines 995-1004): lower-case the extension and test
membership in the fixed extension list. strings.ToLower is modelled
per character; all characters of the recognized extensions are ASCII. -/
def IsVideoFile (path : String) : Bool :=
  let ext := String.mk ((filepathExt path).data.map Char.toLower)
  [".mp4", ".mov", ".avi", ".wmv", ".mkv", ".flv", ".webm", ".mpeg", ".mpg"].contains ext

/-- Observable outcome of a VideoSummary call on a single-file input path
that exists: whether the not-a-video warning was logged (line 786), how
many output files were created, how many chunks were processed, whether the
call returned nil, and whether the process exited through log.Fatalf. -/
structure RunOutcome where
  warnedNotVideo : Bool
  filesCreated : Nat
  chunksProcessed : Nat
  returnedNil : Bool
  exitedFatal : Bool
deriving DecidableEq, Repr

/-- VideoSummary on an existing single-file input (lines 781-793 and the
per-video loop): a non-video path is warned about and videoPaths stays
empty, so the function prints "No video files found" and returns nil
(lines 790-793) without creating any output file or touching any chunk;
a video path enters the loop with the single discovered video. -/
def videoSummarySingleFile (path : String) (env : VideoEnv) : RunOutcome :=
  if IsVideoFile path then
    let s := processOneVideo env
    { warnedNotVideo := false
      filesCreated := s.filesCreated
      chunksProcessed := s.chunksProcessed
      returnedNil := s.status ≠ VideoStepResult.fatal
      exitedFatal := s.status = VideoStepResult.fatal }
  else
    { warnedNotVideo := true, filesCreated := 0, chunksProcessed := 0
      returnedNil := true, exitedFatal := false }

/-! ## Final prompt construction (VideoSummary, src/main.go lines 862-890) -/

/-- Shared body of both prompt templates, up to the first %s slot (the
with-context template prepends a context line and a tab to it). -/
def promptBodyIntro : String :=
  "Here is a raw transcription of a video. Your task is to refine it into a well-structured, human-like summary with explanations while keeping all the original details. Analyze the lecture provided in the audio transcription and video text. Identify the main topic, key arguments, supporting evidence, and any examples used, highlighting the connections between different ideas. Use information from both the audio transcription and video text to create a comprehensive explanation, also use timestamp to help us correlate with the audio transcript:\n\n    --- RAW TRANSCRIPTION of Audio ---\n    "

/-- Template text between the two transcript slots. -/
def promptMid : String :=
  "\n\n    --- RAW TRANSCRIPTION of Video Text ---\n    "

/-- Template text after the second transcript slot. -/
def promptTail : String :=
  "\n\n    Please rewrite it clearly with explanations where needed, ensuring it\x27s easy to read and understand."

/-- combinedPromptText (line 886): fmt.Sprintf(promptTemplate,
inputFromUser, combinedAudioTranscript, combinedVideoTranscript). The
with-context template has three %s verbs, matching the three operands. The
no-context template has only two %s verbs, so Sprintf fills them with the
first two operands (the empty inputFromUser and the audio transcript) and
appends the leftover video transcript as a Go extra-operand marker
"%!(EXTRA string=...)". -/
def combinedPromptText (inputFromUser audioT videoT : String) : String :=
  if inputFromUser ≠ "" then
    "Context from user about this video: " ++ inputFromUser ++ "\n\t"
      ++ promptBodyIntro ++ audioT ++ promptMid ++ videoT ++ promptTail
  else
    promptBodyIntro ++ inputFromUser ++ promptMid ++ audioT ++ promptTail
      ++ "%!(EXTRA string=" ++ videoT ++ ")"

/-- Modelled from the spec: the prompt the spec describes, with the audio
transcript in the audio slot, the video transcript in the video-text slot,
and the user context only prefixed when it is non-empty. Used solely to
compare the code's prompt against the claimed one. -/
def specExpectedPrompt (inputFromUser audioT videoT : String) : String :=
  if inputFromUser ≠ "" then
    "Context from user about this video: " ++ inputFromUser ++ "\n\t"
      ++ promptBodyIntro ++ audioT ++ promptMid ++ videoT ++ promptTail
  else
    promptBodyIntro ++ audioT ++ promptMid ++ videoT ++ promptTail

/-! ## Concrete witness data -/

/-- A response with one candidate holding one text part. -/
def respWith (s : String) : LlmResponse := [some [LlmPart.text s]]

/-- A remote call that fails on attempts 0 and 1 and succeeds on attempt 2. -/
def genSucceedsAt2 : Nat → Option LlmResponse :=
  fun n => if n < 2 then none else some (respWith "ok")

/-- A remote call that fails on every attempt. -/
def genAlwaysFails : Nat → Option LlmResponse :=
  fun _ => none

/-- Fallback environment whose frame extraction succeeds with zero frames:
the post-OCR cleanup guard len(framePaths) > 0 then skips the removal. -/
def c5EmptyFramesEnv : LlmVideoEnv :=
  { videoIndex := 1, chunkNum := 0, uploadOk := false,
    promptGen := fun _ => none, extract := Except.ok [], ocrMsgs := [] }

/-- Environment where the upload succeeds and the remote prompt returns
non-empty text. -/
def c5RemoteOkEnv : LlmVideoEnv :=
  { videoIndex := 1, chunkNum := 0, uploadOk := true,
    promptGen := fun _ => some (respWith "screen"),
    extract := Except.ok ["f1"], ocrMsgs := [] }

/-- Environment where the upload fails and the fallback extracts one frame. -/
def c5FallbackEnv : LlmVideoEnv :=
  { videoIndex := 1, chunkNum := 0, uploadOk := false,
    promptGen := fun _ => none, extract := Except.ok ["f1"],
    ocrMsgs := [{ text := "t", error := none }] }

/-- Concrete chunk 0 of a two-chunk run. -/
def chunkW0 : ChunkData :=
  { videoPath := "/tmp/video_chunks/chunk_0_video_1.mp4"
    audioPath := "/tmp/video_chunks/chunk_0_video_1.wav"
    chunkNum := 0, err := none, videoIndex := 1, baseName := "vid" }

/-- Concrete chunk 1 of a two-chunk run. -/
def chunkW1 : ChunkData :=
  { videoPath := "/tmp/video_chunks/chunk_1_video_1.mp4"
    audioPath := "/tmp/video_chunks/chunk_1_video_1.wav"
    chunkNum := 1, err := none, videoIndex := 1, baseName := "vid" }

/-- Outcomes for chunk 0: audio succeeds, screen-text fails. -/
def outcomeW0 : ChunkOutcome :=
  { aRes := Except.ok "audio text", vRes := Except.error "upload failed" }

/-- Outcomes for chunk 1: audio fails, screen-text succeeds. -/
def outcomeW1 : ChunkOutcome :=
  { aRes := Except.error "whisper boom", vRes := Except.ok "screen text" }

/-- A schedule for chunk 0 in which the audio task finishes first. -/
def evsW0 : List Event :=
  audioTaskEvents chunkW0 outcomeW0.aRes ++ videoTaskEvents chunkW0 outcomeW0.vRes

/-- A schedule for chunk 1 in which the screen-text task finishes first. -/
def evsW1 : List Event :=
  videoTaskEvents chunkW1 outcomeW1.vRes ++ audioTaskEvents chunkW1 outcomeW1.aRes

/-- The chunk list of the concrete two-chunk run. -/
def psW : List (ChunkData × ChunkOutcome) :=
  [(chunkW0, outcomeW0), (chunkW1, outcomeW1)]

/-- The full event trace of the concrete two-chunk run. -/
def evsW : List Event :=
  evsW0 ++ (evsW1 ++ [])

/-- A video whose first output file cannot be created. -/
def envCreateFail : VideoEnv :=
  { createOutputOk := false, createAudioOk := true, createVideoOk := true,
    chunkResult := Except.ok 2, readAudioOk := true, readVideoOk := true }

/-- A video whose audio transcript cannot be read back. -/
def envReadFail : VideoEnv :=
  { createOutputOk := true, createAudioOk := true, createVideoOk := true,
    chunkResult := Except.ok 2, readAudioOk := false, readVideoOk := true }

/-- A video for which every per-video step succeeds. -/
def envGood : VideoEnv :=
  { createOutputOk := true, createAudioOk := true, createVideoOk := true,
    chunkResult := Except.ok 3, readAudioOk := true, readVideoOk := true }

/-! ## Helper lemmas -/

/-- Appending one task's events before the other is also an interleaving. -/
theorem interleave_append_right : ∀ (xs ys : List Event), Interleave xs ys (ys ++ xs)
  | [], [] => Interleave.nil
  | x :: xs, [] => Interleave.left (interleave_append_right xs [])
  | xs, y :: ys => Interleave.right (interleave_append_right xs ys)

/-- Unfolding of the retry loop on a failing attempt below the retry limit. -/
theorem attemptLoop_fail_step {gen : Nat → Option LlmResponse} {attempt : Nat}
    (fuel : Nat) (hg : gen attempt = none) (hlt : attempt < maxRetries) :
    attemptLoop gen attempt (fuel + 1)
      = ((attemptLoop gen (attempt + 1) fuel).1,
         (attemptLoop gen (attempt + 1) fuel).2.1 + 1,
         (attemptLoop gen (attempt + 1) fuel).2.2 + 1) := by
  simp [attemptLoop, hg, hlt]

/-- If the generator fails on the first k attempts (k below the retry limit)
and succeeds on attempt k, the loop returns the extracted text after exactly
k+1 attempts and k sleeps. -/
theorem attemptLoop_first_success :
    ∀ (k : Nat) (gen : Nat → Option LlmResponse) (a fuel : Nat) (r : LlmResponse),
      k < fuel → a + fuel = maxRetries + 1 →
      (∀ i, i < k → gen (a + i) = none) → gen (a + k) = some r →
      attemptLoop gen a fuel = (extractText r, k + 1, k) := by
  intro k
  induction k with
  | zero =>
      intro gen a fuel r hkf _ _ hk
      match fuel, hkf with
      | fuel + 1, _ =>
          have ha : gen a = some r := by simpa using hk
          simp [attemptLoop, ha]
  | succ k ih =>
      intro gen a fuel r hkf hsum hnone hk
      match fuel, hkf with
      | fuel + 1, hkf =>
          have ha : gen a = none := by simpa using hnone 0 (Nat.succ_pos k)
          have hfuel : 1 ≤ fuel := by omega
          have hlt : a < maxRetries := by
            have : maxRetries = 5 := rfl
            omega
          rw [attemptLoop_fail_step fuel ha hlt]
          have hrec := ih gen (a + 1) fuel r (by omega) (by omega)
            (fun i hi => by
              have := hnone (i + 1) (by omega)
              simpa [Nat.add_assoc, Nat.add_comm 1 i] using this)
            (by
              have : a + (k + 1) = a + 1 + k := by omega
              rw [← this]; exact hk)
          rw [hrec]

/-- If the generator fails on every attempt, the loop exhausts its fuel,
making one attempt per remaining iteration and sleeping between consecutive
attempts. -/
theorem attemptLoop_all_fail :
    ∀ (fuel : Nat) (gen : Nat → Option LlmResponse) (a : Nat),
      0 < fuel → a + fuel = maxRetries + 1 → (∀ i, gen i = none) →
      attemptLoop gen a fuel = ("", fuel, fuel - 1) := by
  intro fuel
  induction fuel with
  | zero => intro gen a h0 _ _; exact absurd h0 (by omega)
  | succ fuel ih =>
      intro gen a _ hsum hnone
      cases fuel with
      | zero =>
          have ha : a = maxRetries := by
            have : maxRetries = 5 := rfl
            omega
          subst ha
          simp [attemptLoop, hnone maxRetries]
      | succ fuel =>
          have hlt : a < maxRetries := by
            have : maxRetries = 5 := rfl
            omega
          rw [attemptLoop_fail_step (fuel + 1) (hnone a) hlt]
          rw [ih gen (a + 1) (by omega) (by omega) hnone]
          simp

/-- The collection fold of the OCR pool, with an arbitrary accumulator:
it appends exactly the successful texts, each followed by a newline. -/
theorem tvt_foldl (msgs : List FrameMsg) :
    ∀ s : String,
      msgs.foldl
        (fun acc m =>
          match m.error with
          | some _ => acc
          | none => acc ++ m.text ++ "\n")
        s
      = s ++ concatStrings (msgs.filterMap fun m =>
          match m.error with
          | some _ => none
          | none => some (m.text ++ "\n")) := by
  induction msgs with
  | nil => intro s; simp [concatStrings]
  | cons m ms ih =>
      intro s
      cases he : m.error with
      | some e =>
          simp only [List.foldl_cons, List.filterMap_cons, he]
          exact ih s
      | none =>
          simp only [List.foldl_cons, List.filterMap_cons, he]
          rw [ih (s ++ m.text ++ "\n"), concatStrings]
          simp [String.append_assoc]

/-! ## Claim C4 -/

/-- Claim C4 (confirmed): the RetryingCaller, given a call that fails the
first k < maxRetries attempts and then succeeds, makes exactly k+1 attempts
with k inter-attempt sleeps of the fixed delay and returns the concatenated
text parts of the successful response; given a call that always fails, it
makes exactly maxRetries+1 attempts and returns the empty string instead of
an error. -/
theorem c4_retrying_caller :
    (∀ (gen : Nat → Option LlmResponse) (k : Nat) (r : LlmResponse),
        k < maxRetries → (∀ i, i < k → gen i = none) → gen k = some r →
        sentLlmPrompt gen = (extractText r, k + 1, k))
      ∧ (∀ gen : Nat → Option LlmResponse, (∀ i, gen i = none) →
        sentLlmPrompt gen = ("", maxRetries + 1, maxRetries)) := by
  constructor
  · intro gen k r hk hnone hsucc
    exact attemptLoop_first_success k gen 0 (maxRetries + 1) r (by omega) (by omega)
      (fun i hi => by simpa using hnone i hi) (by simpa using hsucc)
  · intro gen hnone
    exact attemptLoop_all_fail (maxRetries + 1) gen 0 (by omega) (by omega) hnone

/-- Witness for C4: with failures at attempts 0 and 1 and success at
attempt 2, the caller returns "ok" after 3 attempts and 2 sleeps; with a
permanently failing call it returns "" after 6 attempts and 5 sleeps. -/
theorem c4_retrying_caller_witness :
    sentLlmPrompt genSucceedsAt2 = ("ok", 3, 2)
      ∧ sentLlmPrompt genAlwaysFails = ("", 6, 5) := by
  constructor
  · have h := c4_retrying_caller.1 genSucceedsAt2 2 (respWith "ok") (by decide)
      (fun i hi => by simp [genSucceedsAt2, hi])
      (by simp [genSucceedsAt2])
    simpa using h
  · have h := c4_retrying_caller.2 genAlwaysFails (fun i => rfl)
    simpa using h

/-- Appending one task's events after the other is one possible
interleaving. -/
theorem interleave_append : ∀ (xs ys : List Event), Interleave xs ys (xs ++ ys)
  | [], [] => Interleave.nil
  | [], y :: ys => Interleave.right (interleave_append [] ys)
  | x :: xs, ys => Interleave.left (interleave_append xs ys)

/-- If the right-hand task contributes nothing to a projection, the
projection of any interleaving equals the projection of the left task. -/
theorem interleave_filterMap_left {α : Type} {f : Event → Option α}
    {xs ys zs : List Event} (h : Interleave xs ys zs)
    (hy : ∀ y ∈ ys, f y = none) : zs.filterMap f = xs.filterMap f := by
  induction h with
  | nil => rfl
  | @left x xs ys zs h ih =>
      rw [List.filterMap_cons, List.filterMap_cons, ih hy]
  | @right y xs ys zs h ih =>
      rw [List.filterMap_cons, hy y (List.mem_cons_self y ys)]
      exact ih fun y' hy' => hy y' (List.mem_cons_of_mem _ hy')

/-- Symmetric version: the projection of any interleaving equals the
projection of the right task. -/
theorem interleave_filterMap_right {α : Type} {f : Event → Option α}
    {xs ys zs : List Event} (h : Interleave xs ys zs)
    (hx : ∀ x ∈ xs, f x = none) : zs.filterMap f = ys.filterMap f := by
  induction h with
  | nil => rfl
  | @left x xs ys zs h ih =>
      rw [List.filterMap_cons, hx x (List.mem_cons_self x xs)]
      exact ih fun x' hx' => hx x' (List.mem_cons_of_mem _ hx')
  | @right y xs ys zs h ih =>
      rw [List.filterMap_cons, List.filterMap_cons, ih hx]

/-- Occurrence counts add up across an interleaving. -/
theorem interleave_count {xs ys zs : List Event} (h : Interleave xs ys zs)
    (a : Event) : zs.count a = xs.count a + ys.count a := by
  induction h with
  | nil => rfl
  | @left x xs ys zs h ih => by_cases hxa : x = a <;> simp [List.count_cons, ih, hxa] <;> omega
  | @right y xs ys zs h ih => by_cases hya : y = a <;> simp [List.count_cons, ih, hya] <;> omega

/-- Membership in the left task is preserved by interleaving. -/
theorem interleave_mem_left {xs ys zs : List Event} (h : Interleave xs ys zs)
    {a : Event} (ha : a ∈ xs) : a ∈ zs := by
  induction h with
  | nil => exact absurd ha (List.not_mem_nil a)
  | @left x xs ys zs h ih =>
      rcases List.mem_cons.mp ha with h1 | h2
      · exact h1 ▸ List.mem_cons_self _ _
      · exact List.mem_cons_of_mem _ (ih h2)
  | @right y xs ys zs h ih => exact List.mem_cons_of_mem _ (ih ha)

/-- The concrete chunk-0 schedule is a legal processChunk trace. -/
theorem chunkRunW0 : ChunkRun chunkW0 outcomeW0 evsW0 := by
  show Interleave (audioTaskEvents chunkW0 outcomeW0.aRes)
    (videoTaskEvents chunkW0 outcomeW0.vRes) evsW0
  exact interleave_append _ _

/-- The concrete chunk-1 schedule is a legal processChunk trace. -/
theorem chunkRunW1 : ChunkRun chunkW1 outcomeW1 evsW1 := by
  show Interleave (audioTaskEvents chunkW1 outcomeW1.aRes)
    (videoTaskEvents chunkW1 outcomeW1.vRes) evsW1
  exact interleave_append_right _ _

/-- The concrete two-chunk trace is a legal sequential video run. -/
theorem videoRunW : VideoRun psW evsW :=
  VideoRun.cons chunkRunW0 (VideoRun.cons chunkRunW1 VideoRun.nil)

/-- The audio task appends exactly one entry to the audio transcript file:
its chunk header indices and its transcript-or-placeholder text. -/
theorem audioAppends_audioTask (c : ChunkData) (r : Except String String) :
    audioAppends (audioTaskEvents c r) = [(c.videoIndex, c.chunkNum, audioEntryText c r)] := by
  cases r <;> rfl

/-- The screen-text task appends nothing to the audio transcript file. -/
theorem audioAppends_videoTask (c : ChunkData) (r : Except String String) :
    audioAppends (videoTaskEvents c r) = [] := by
  cases r <;> rfl

/-- The screen-text task appends exactly one entry to the screen-text
transcript file. -/
theorem videoAppends_videoTask (c : ChunkData) (r : Except String String) :
    videoAppends (videoTaskEvents c r) = [(c.videoIndex, c.chunkNum, videoEntryText c r)] := by
  cases r <;> rfl

/-- The audio task appends nothing to the screen-text transcript file. -/
theorem videoAppends_audioTask (c : ChunkData) (r : Except String String) :
    videoAppends (audioTaskEvents c r) = [] := by
  cases r <;> rfl

/-- ChunkRun of an error-free chunk is an interleaving of the two tasks. -/
theorem chunkRun_interleave {c : ChunkData} {o : ChunkOutcome} {evs : List Event}
    (he : c.err = none) (h : ChunkRun c o evs) :
    Interleave (audioTaskEvents c o.aRes) (videoTaskEvents c o.vRes) evs := by
  unfold ChunkRun at h
  rw [he] at h
  exact h

/-- One error-free chunk contributes exactly one audio-file entry, whatever
the schedule. -/
theorem chunkRun_audioAppends {c : ChunkData} {o : ChunkOutcome} {evs : List Event}
    (he : c.err = none) (h : ChunkRun c o evs) :
    audioAppends evs = [(c.videoIndex, c.chunkNum, audioEntryText c o.aRes)] := by
  have h' := chunkRun_interleave he h
  have hz := interleave_filterMap_left h' (f := fun e =>
    match e with
    | Event.audioAppend i cn t => some (i, cn, t)
    | _ => none)
    (by intro y hy; cases hv : o.vRes <;> rw [hv] at hy <;>
        simp only [videoTaskEvents] at hy <;> fin_cases hy <;> rfl)
  rw [audioAppends, hz, ← audioAppends, audioAppends_audioTask]

/-- One error-free chunk contributes exactly one screen-text-file entry. -/
theorem chunkRun_videoAppends {c : ChunkData} {o : ChunkOutcome} {evs : List Event}
    (he : c.err = none) (h : ChunkRun c o evs) :
    videoAppends evs = [(c.videoIndex, c.chunkNum, videoEntryText c o.vRes)] := by
  have h' := chunkRun_interleave he h
  have hz := interleave_filterMap_right h' (f := fun e =>
    match e with
    | Event.videoAppend i cn t => some (i, cn, t)
    | _ => none)
    (by intro y hy; cases ha : o.aRes <;> rw [ha] at hy <;>
        simp only [audioTaskEvents] at hy <;> fin_cases hy <;> rfl)
  rw [videoAppends, hz, ← videoAppends, videoAppends_videoTask]

/-- Over a whole video run with error-free chunks, the audio transcript file
receives exactly one entry per chunk, in chunk-loop order. -/
theorem videoRun_audioAppends {ps : List (ChunkData × ChunkOutcome)} {evs : List Event}
    (h : VideoRun ps evs) (hmem : ∀ p ∈ ps, (p : ChunkData × ChunkOutcome).1.err = none) :
    audioAppends evs
      = ps.map fun p => (p.1.videoIndex, p.1.chunkNum, audioEntryText p.1 p.2.aRes) := by
  induction h with
  | nil => rfl
  | @cons c o cs evs rest hc hrest ih =>
      rw [audioAppends, List.filterMap_append, ← audioAppends, ← audioAppends]
      rw [chunkRun_audioAppends (hmem (c, o) (List.mem_cons_self _ _)) hc]
      rw [ih fun p hp => hmem p (List.mem_cons_of_mem _ hp)]
      rfl

/-- Same for the screen-text transcript file. -/
theorem videoRun_videoAppends {ps : List (ChunkData × ChunkOutcome)} {evs : List Event}
    (h : VideoRun ps evs) (hmem : ∀ p ∈ ps, (p : ChunkData × ChunkOutcome).1.err = none) :
    videoAppends evs
      = ps.map fun p => (p.1.videoIndex, p.1.chunkNum, videoEntryText p.1 p.2.vRes) := by
  induction h with
  | nil => rfl
  | @cons c o cs evs rest hc hrest ih =>
      rw [videoAppends, List.filterMap_append, ← videoAppends, ← videoAppends]
      rw [chunkRun_videoAppends (hmem (c, o) (List.mem_cons_self _ _)) hc]
      rw [ih fun p hp => hmem p (List.mem_cons_of_mem _ hp)]
      rfl

/-! ## Claim C1 -/

/-- Claim C1 (code bug): the Segmenter does NOT compute ceil(D/L) for every
positive duration. At duration 10.5 s with 5 s chunks the code computes 2
chunks while ceil(10.5/5) = 3 (the final 0.5 s is never cut); at duration
0.5 s with 1 s chunks the code computes 0 chunks while ceil(0.5/1) = 1 (the
whole video is dropped). Both inputs are exactly representable in float64,
so the rational idealization agrees with the source arithmetic. The claim
does hold for integer durations, as the last two conjuncts illustrate. -/
theorem c1_chunk_count_eval :
    numChunks (21/2 : ℚ) 5 = 2 ∧ (⌈((21:ℚ)/2) / ((5:ℤ):ℚ)⌉ : ℤ) = 3
      ∧ numChunks (1/2 : ℚ) 1 = 0 ∧ (⌈((1:ℚ)/2) / ((1:ℤ):ℚ)⌉ : ℤ) = 1
      ∧ numChunks 10 5 = 2 ∧ numChunks 12 5 = 3 := by
  have e1 : numChunks (21/2 : ℚ) 5 = 2 := by
    have h1 : ((21:ℚ)/2) / ((5:ℤ):ℚ) = 21/10 := by norm_num
    have h2 : (⌊(21:ℚ)/10⌋ : ℤ) = 2 := by rw [Int.floor_eq_iff] <;> norm_num
    have h3 : (⌊(21:ℚ)/2⌋ : ℤ) = 10 := by rw [Int.floor_eq_iff] <;> norm_num
    simp only [numChunks, goTrunc, h1]
    rw [if_pos (by norm_num : (0:ℚ) ≤ 21/10), if_pos (by norm_num : (0:ℚ) ≤ 21/2), h2, h3]
    decide
  have e2 : (⌈((21:ℚ)/2) / ((5:ℤ):ℚ)⌉ : ℤ) = 3 := by
    have h1 : ((21:ℚ)/2) / ((5:ℤ):ℚ) = 21/10 := by norm_num
    rw [h1, Int.ceil_eq_iff] <;> norm_num
  have e3 : numChunks (1/2 : ℚ) 1 = 0 := by
    have h1 : ((1:ℚ)/2) / ((1:ℤ):ℚ) = 1/2 := by norm_num
    have h2 : (⌊(1:ℚ)/2⌋ : ℤ) = 0 := by rw [Int.floor_eq_iff] <;> norm_num
    simp only [numChunks, goTrunc, h1]
    rw [if_pos (by norm_num : (0:ℚ) ≤ 1/2), h2]
    norm_num
  have e4 : (⌈((1:ℚ)/2) / ((1:ℤ):ℚ)⌉ : ℤ) = 1 := by
    have h1 : ((1:ℚ)/2) / ((1:ℤ):ℚ) = 1/2 := by norm_num
    rw [h1, Int.ceil_eq_iff] <;> norm_num
  have e5 : numChunks 10 5 = 2 := by
    have h1 : ((10:ℚ)) / ((5:ℤ):ℚ) = 2 := by norm_num
    have h2 : (⌊(2:ℚ)⌋ : ℤ) = 2 := by norm_num
    have h3 : (⌊(10:ℚ)⌋ : ℤ) = 10 := by norm_num
    simp only [numChunks, goTrunc, h1]
    rw [if_pos (by norm_num : (0:ℚ) ≤ 2), if_pos (by norm_num : (0:ℚ) ≤ 10), h2, h3]
    decide
  have e6 : numChunks 12 5 = 3 := by
    have h1 : ((12:ℚ)) / ((5:ℤ):ℚ) = 12/5 := by norm_num
    have h2 : (⌊(12:ℚ)/5⌋ : ℤ) = 2 := by rw [Int.floor_eq_iff] <;> norm_num
    have h3 : (⌊(12:ℚ)⌋ : ℤ) = 12 := by norm_num
    simp only [numChunks, goTrunc, h1]
    rw [if_pos (by norm_num : (0:ℚ) ≤ 12/5), if_pos (by norm_num : (0:ℚ) ≤ 12), h2, h3]
    decide
  exact ⟨e1, e2, e3, e4, e5, e6⟩

/-! ## Claim C2 -/

set_option maxRecDepth 100000 in
/-- Claim C2 (code bug): with an empty user context, VideoSummary calls
fmt.Sprintf with the two-verb no-context template but three operands, so
the audio slot of the prompt receives the empty context string, the
video-text slot receives the audio transcript, and the video transcript is
appended as a Go "%!(EXTRA string=...)" marker. The prompt therefore
differs from the spec-described prompt for every non-degenerate transcript
pair; with a non-empty user context the code and the spec agree. -/
theorem c2_combined_prompt_eval :
    combinedPromptText "" "hello" "world"
        = promptBodyIntro ++ "" ++ promptMid ++ "hello" ++ promptTail
            ++ "%!(EXTRA string=" ++ "world" ++ ")"
      ∧ combinedPromptText "" "hello" "world" ≠ specExpectedPrompt "" "hello" "world"
      ∧ (∀ u a v : String, u ≠ "" → combinedPromptText u a v = specExpectedPrompt u a v) := by
  refine ⟨rfl, ?_, ?_⟩
  · decide
  · intro u a v hu
    rw [combinedPromptText, specExpectedPrompt, if_pos hu, if_pos hu]

/-! ## Claim C6 -/

/-- Claim C6 (confirmed): for every completion-order list of per-frame
results, the OCR pool returns exactly the concatenation of the successful
frames' texts (each followed by a newline) in that order, omitting exactly
the failing frames, with a nil error; in particular, when every frame
fails, the whole list is still consumed and the result is the empty string
with no error. -/
theorem c6_ocr_pool :
    (∀ msgs : List FrameMsg,
        TranscribeVideoTesseractAPI msgs
          = (concatStrings (msgs.filterMap fun m =>
              match m.error with
              | some _ => none
              | none => some (m.text ++ "\n")), none))
      ∧ (∀ msgs : List FrameMsg, (∀ m ∈ msgs, m.error ≠ none) →
          TranscribeVideoTesseractAPI msgs = ("", none)) := by
  have hmain : ∀ msgs : List FrameMsg,
      TranscribeVideoTesseractAPI msgs
        = (concatStrings (msgs.filterMap fun m =>
            match m.error with
            | some _ => none
            | none => some (m.text ++ "\n")), none) := by
    intro msgs
    unfold TranscribeVideoTesseractAPI
    rw [tvt_foldl msgs ""]
    simp
  refine ⟨hmain, fun msgs hfail => ?_⟩
  rw [hmain msgs]
  have hnil : (msgs.filterMap fun m =>
      match m.error with
      | some _ => none
      | none => some (m.text ++ "\n")) = [] := by
    rw [List.filterMap_eq_nil_iff]
    intro m hm
    cases he : m.error with
    | some e => rfl
    | none => exact absurd he (hfail m hm)
  rw [hnil]
  rfl

/-- Witness for C6: a pool run in which every frame fails returns the empty
string and a nil error. -/
theorem c6_ocr_pool_witness :
    TranscribeVideoTesseractAPI
        [{ text := "x", error := some "decode failed" },
         { text := "y", error := some "tesseract failed" }]
      = ("", none) := by
  refine c6_ocr_pool.2 _ ?_
  intro m hm
  fin_cases hm <;> simp

/-! ## Claim C5 -/

/-- Claim C5 (counterexample to the claim as stated): when the remote
upload fails and frame extraction succeeds but yields zero frames, the OCR
fallback runs (once) and completes with an empty transcript, yet the
extracted-frames scratch directory is NOT removed, because the cleanup
os.RemoveAll is guarded by len(framePaths) > 0. -/
theorem c5_counterexample :
    (transcribeVideoLLM c5EmptyFramesEnv).2.fallbackRuns = 1
      ∧ (transcribeVideoLLM c5EmptyFramesEnv).1 = Except.ok ""
      ∧ (transcribeVideoLLM c5EmptyFramesEnv).2.framesDirRemoved = false := by
  refine ⟨rfl, rfl, rfl⟩

/-- Claim C5 (amended): the fallback runs exactly once iff the upload fails
or the retry-governed prompt result is empty, and never otherwise; the
uploaded remote artifact is released exactly once whenever the upload
succeeded (and there is nothing to release otherwise); a non-empty prompt
result is returned as is with no fallback; and the extracted-frames scratch
directory is removed after OCR completes whenever at least one frame path
was extracted (with zero extracted frames it is left behind, as the
counterexample shows). -/
theorem c5_screen_text_fallback :
    ∀ env : LlmVideoEnv,
      ((transcribeVideoLLM env).2.fallbackRuns
          = if env.uploadOk = true ∧ (sentLlmPrompt env.promptGen).1 ≠ "" then 0 else 1)
      ∧ ((transcribeVideoLLM env).2.deleteFileCalls = if env.uploadOk = true then 1 else 0)
      ∧ (env.uploadOk = true → (sentLlmPrompt env.promptGen).1 ≠ "" →
          (transcribeVideoLLM env).1 = Except.ok (sentLlmPrompt env.promptGen).1)
      ∧ (∀ fs, env.extract = Except.ok fs → fs ≠ [] →
          (env.uploadOk = false ∨ (sentLlmPrompt env.promptGen).1 = "") →
          (transcribeVideoLLM env).2.framesDirRemoved = true) := by
  intro env
  obtain ⟨vi, cn, u, pg, ex, msgs⟩ := env
  cases u with
  | false =>
      cases ex with
      | error e =>
          refine ⟨by simp [transcribeVideoLLM], by simp [transcribeVideoLLM],
            by intro h; exact absurd h (by simp), ?_⟩
          intro fs hfs
          exact absurd hfs (by simp)
      | ok fs =>
          refine ⟨by simp [transcribeVideoLLM, TranscribeVideoTesseractAPI],
            by simp [transcribeVideoLLM, TranscribeVideoTesseractAPI],
            by intro h; exact absurd h (by simp), ?_⟩
          intro fs' hfs' hne _
          have hfs2 : fs = fs' := by simpa using hfs'
          subst hfs2
          cases fs with
          | nil => exact absurd rfl hne
          | cons a l => simp [transcribeVideoLLM, TranscribeVideoTesseractAPI]
  | true =>
      by_cases hp : (sentLlmPrompt pg).1 = ""
      · cases ex with
        | error e =>
            refine ⟨by simp [transcribeVideoLLM, hp], by simp [transcribeVideoLLM, hp],
              by intro _ hne; exact absurd hp hne, ?_⟩
            intro fs hfs
            exact absurd hfs (by simp)
        | ok fs =>
            refine ⟨by simp [transcribeVideoLLM, TranscribeVideoTesseractAPI, hp],
              by simp [transcribeVideoLLM, TranscribeVideoTesseractAPI, hp],
              by intro _ hne; exact absurd hp hne, ?_⟩
            intro fs' hfs' hne _
            have hfs2 : fs = fs' := by simpa using hfs'
            subst hfs2
            cases fs with
            | nil => exact absurd rfl hne
            | cons a l => simp [transcribeVideoLLM, TranscribeVideoTesseractAPI, hp]
      · refine ⟨by simp [transcribeVideoLLM, hp], by simp [transcribeVideoLLM, hp],
          by intro _ _; simp [transcribeVideoLLM, hp], ?_⟩
        intro fs hfs hne hor
        rcases hor with h1 | h2
        · exact absurd h1 (by simp)
        · exact absurd h2 hp

/-- Witness for C5 (amended): with a successful upload and the prompt
answering "screen", the result is that text with no fallback; with a failed
upload and one extracted frame, the scratch directory is removed. -/
theorem c5_screen_text_fallback_witness :
    (transcribeVideoLLM c5RemoteOkEnv).1 = Except.ok "screen"
      ∧ (transcribeVideoLLM c5FallbackEnv).2.framesDirRemoved = true := by
  constructor
  · have h := (c5_screen_text_fallback c5RemoteOkEnv).2.2.1 rfl (by decide)
    have he : (sentLlmPrompt c5RemoteOkEnv.promptGen).1 = "screen" := rfl
    rw [he] at h
    exact h
  · exact (c5_screen_text_fallback c5FallbackEnv).2.2.2 ["f1"] rfl (by simp) (Or.inl rfl)

/-! ## Claim C7 -/

/-- Claim C7 (confirmed): for every sequential video run over error-free
chunks, each transcript file receives exactly one entry per chunk in
chunk-loop order, whatever the per-chunk schedule of the two concurrent
tasks; when the chunk numbers are the Segmenter's 0,1,2,... sequence, the
appended chunk indices are strictly increasing in both files. -/
theorem c7_append_order :
    ∀ (ps : List (ChunkData × ChunkOutcome)) (evs : List Event),
      VideoRun ps evs → (∀ p ∈ ps, (p : ChunkData × ChunkOutcome).1.err = none) →
      ((audioAppends evs).map (fun x => x.2.1) = ps.map (fun p => p.1.chunkNum)
        ∧ (videoAppends evs).map (fun x => x.2.1) = ps.map (fun p => p.1.chunkNum)
        ∧ (ps.map (fun p => p.1.chunkNum) = List.range ps.length →
            List.Pairwise (fun a b => a < b) ((audioAppends evs).map (fun x => x.2.1))
              ∧ List.Pairwise (fun a b => a < b) ((videoAppends evs).map (fun x => x.2.1)))) := by
  intro ps evs h hmem
  have ha2 : (audioAppends evs).map (fun x => x.2.1) = ps.map (fun p => p.1.chunkNum) := by
    rw [videoRun_audioAppends h hmem, List.map_map]
    rfl
  have hv2 : (videoAppends evs).map (fun x => x.2.1) = ps.map (fun p => p.1.chunkNum) := by
    rw [videoRun_videoAppends h hmem, List.map_map]
    rfl
  refine ⟨ha2, hv2, fun hrange => ⟨?_, ?_⟩⟩
  · rw [ha2, hrange]
    exact List.pairwise_lt_range _
  · rw [hv2, hrange]
    exact List.pairwise_lt_range _

/-- Witness for C7: in the concrete two-chunk run, where chunk 0 finishes
audio first and chunk 1 finishes screen-text first, both transcript files
receive chunk entries in the order 0, 1. -/
theorem c7_append_order_witness :
    (audioAppends evsW).map (fun x => x.2.1) = [0, 1]
      ∧ (videoAppends evsW).map (fun x => x.2.1) = [0, 1] := by
  have h := c7_append_order psW evsW videoRunW (by intro p hp; fin_cases hp <;> rfl)
  exact ⟨h.1, h.2.1⟩

/-! ## Claim C8 -/

/-- Claim C8 (confirmed): for every error-free chunk with distinct audio
and video artifact paths and every schedule, the chunk's trace deletes the
audio artifact exactly once and the video artifact exactly once, whether
the transcriptions succeeded or failed; and every chunk the Segmenter
produces is error-free with distinct artifact paths. -/
theorem c8_artifact_cleanup :
    (∀ (c : ChunkData) (o : ChunkOutcome) (evs : List Event),
        c.err = none → c.audioPath ≠ c.videoPath → ChunkRun c o evs →
        evs.count (Event.removeFile c.audioPath) = 1
          ∧ evs.count (Event.removeFile c.videoPath) = 1)
      ∧ (∀ (duration : ℚ) (chunkDuration : ℤ) (vi : Nat) (bn td : String),
          ∀ c ∈ chunkVideoChunks duration chunkDuration vi bn td,
            c.err = none ∧ c.audioPath ≠ c.videoPath) := by
  constructor
  · intro c o evs he hne hrun
    have hil := chunkRun_interleave he hrun
    have hca := interleave_count hil (Event.removeFile c.audioPath)
    have hcv := interleave_count hil (Event.removeFile c.videoPath)
    have ha1 : (audioTaskEvents c o.aRes).count (Event.removeFile c.audioPath) = 1 := by
      cases o.aRes <;> simp [audioTaskEvents, List.count_cons]
    have ha0 : (videoTaskEvents c o.vRes).count (Event.removeFile c.audioPath) = 0 := by
      cases o.vRes <;> simp [videoTaskEvents, List.count_cons, Ne.symm hne]
    have hv1 : (videoTaskEvents c o.vRes).count (Event.removeFile c.videoPath) = 1 := by
      cases o.vRes <;> simp [videoTaskEvents, List.count_cons]
    have hv0 : (audioTaskEvents c o.aRes).count (Event.removeFile c.videoPath) = 0 := by
      cases o.aRes <;> simp [audioTaskEvents, List.count_cons, hne]
    rw [hca, ha1, ha0, hcv, hv1, hv0]
    exact ⟨rfl, rfl⟩
  · intro duration chunkDuration vi bn td c hc
    obtain ⟨i, _, rfl⟩ := List.mem_map.mp hc
    refine ⟨rfl, fun hmix => ?_⟩
    have hd := congrArg String.data hmix
    rw [String.data_append, String.data_append] at hd
    have htl := List.append_cancel_left hd
    exact absurd htl (by decide)

/-- Witness for C8: in chunk 0's concrete trace both artifacts are removed
exactly once. -/
theorem c8_artifact_cleanup_witness :
    evsW0.count (Event.removeFile chunkW0.audioPath) = 1
      ∧ evsW0.count (Event.removeFile chunkW0.videoPath) = 1 :=
  c8_artifact_cleanup.1 chunkW0 outcomeW0 evsW0 rfl (by decide) chunkRunW0

/-! ## Claim C9 -/

/-- Claim C9 (confirmed): when the speech engine fails for a chunk, the
trace contains the placeholder "Audio transcription failed for video i
chunk c." as that chunk's sole audio-transcript entry, the wrapped error is
sent on the shared error channel, and a whole run still appends one audio
entry for every chunk - failed chunks do not abort the remaining ones. -/
theorem c9_audio_soft_failure :
    (∀ (c : ChunkData) (o : ChunkOutcome) (evs : List Event) (e : String),
        c.err = none → ChunkRun c o evs → o.aRes = Except.error e →
        audioAppends evs
            = [(c.videoIndex, c.chunkNum, audioPlaceholder c.videoIndex c.chunkNum)]
          ∧ Event.errSend (audioTaskErrMsg c.videoIndex c.chunkNum e) ∈ evs)
      ∧ (∀ (ps : List (ChunkData × ChunkOutcome)) (evs : List Event),
          VideoRun ps evs →
          (∀ p ∈ ps, (p : ChunkData × ChunkOutcome).1.err = none) →
          (audioAppends evs).length = ps.length) := by
  constructor
  · intro c o evs e he hrun ha
    constructor
    · rw [chunkRun_audioAppends he hrun, ha]
      rfl
    · have hmem : Event.errSend (audioTaskErrMsg c.videoIndex c.chunkNum e)
          ∈ audioTaskEvents c o.aRes := by
        rw [ha]
        exact List.mem_cons_self _ _
      exact interleave_mem_left (chunkRun_interleave he hrun) hmem
  · intro ps evs h hmem
    rw [videoRun_audioAppends h hmem, List.length_map]

/-- Witness for C9: chunk 1's audio task fails with "whisper boom"; its
trace appends exactly the placeholder entry and sends the wrapped error. -/
theorem c9_audio_soft_failure_witness :
    audioAppends evsW1 = [(1, 1, audioPlaceholder 1 1)]
      ∧ Event.errSend (audioTaskErrMsg 1 1 "whisper boom") ∈ evsW1
      ∧ (audioAppends evsW).length = 2 := by
  have h := c9_audio_soft_failure.1 chunkW1 outcomeW1 evsW1 "whisper boom" rfl chunkRunW1 rfl
  have h2 := c9_audio_soft_failure.2 psW evsW videoRunW (by intro p hp; fin_cases hp <;> rfl)
  exact ⟨h.1, h.2, h2⟩

/-! ## Claim C3 -/

/-- Claim C3 (counterexample to the claim as stated): when creating the
first output file fails, the per-video loop body reaches log.Fatalf - the
process exits with a non-zero status - so the run over a bad video followed
by a good one terminates at the bad video and the good video is never
processed, contradicting "proceeds to the next discovered video; the whole
run is not terminated". (The continue statements after the three log.Fatalf
calls in the source are unreachable.) -/
theorem c3_counterexample :
    (processOneVideo envCreateFail).status = VideoStepResult.fatal
      ∧ runVideos [envCreateFail, envGood]
          = ([{ status := VideoStepResult.fatal, filesCreated := 0, chunksProcessed := 0 }],
             true) :=
  ⟨rfl, rfl⟩

/-- Claim C3 (amended): a failure reading back either transcript file
aborts processing of that video only and the loop proceeds to the next
video; but a failure creating any of the three output files terminates the
whole run through log.Fatalf. -/
theorem c3_per_video_errors :
    ∀ (env : VideoEnv) (envs : List VideoEnv),
      (env.createOutputOk = true → env.createAudioOk = true → env.createVideoOk = true →
        (env.readAudioOk = false ∨ env.readVideoOk = false) →
        (processOneVideo env).status = VideoStepResult.skip
          ∧ runVideos (env :: envs)
              = (processOneVideo env :: (runVideos envs).1, (runVideos envs).2))
      ∧ ((env.createOutputOk = false ∨ env.createAudioOk = false
            ∨ env.createVideoOk = false) →
        (processOneVideo env).status = VideoStepResult.fatal
          ∧ runVideos (env :: envs) = ([processOneVideo env], true)) := by
  intro env envs
  constructor
  · intro h1 h2 h3 hr
    have hs : (processOneVideo env).status = VideoStepResult.skip := by
      unfold processOneVideo
      cases hc : env.chunkResult with
      | error e => simp [h1, h2, h3, hc]
      | ok n =>
          rcases hr with h | h
          · simp [h1, h2, h3, hc, h]
          · cases hra : env.readAudioOk <;> simp [h1, h2, h3, hc, h, hra]
    refine ⟨hs, ?_⟩
    simp only [runVideos, hs]
  · intro hc
    have hs : (processOneVideo env).status = VideoStepResult.fatal := by
      cases ho : env.createOutputOk with
      | false => simp [processOneVideo, ho]
      | true =>
          cases ha : env.createAudioOk with
          | false => simp [processOneVideo, ho, ha]
          | true =>
              cases hv : env.createVideoOk with
              | false => simp [processOneVideo, ho, ha, hv]
              | true => rcases hc with h | h | h <;> simp_all
    refine ⟨hs, ?_⟩
    simp only [runVideos, hs]

/-- Witness for C3 (amended): a read-back failure is a skip and the loop
continues into the remaining videos. -/
theorem c3_per_video_errors_witness :
    (processOneVideo envReadFail).status = VideoStepResult.skip
      ∧ runVideos [envReadFail, envGood]
          = (processOneVideo envReadFail :: (runVideos [envGood]).1,
             (runVideos [envGood]).2) :=
  (c3_per_video_errors envReadFail [envGood]).1 rfl rfl rfl (Or.inl rfl)

/-! ## Claim C10 -/

/-- Claim C10 (confirmed): an existing single-file input whose extension is
not a recognized video extension (case-insensitively) makes VideoSummary
log the not-a-video warning and return nil without creating any output file
and without processing any chunk. -/
theorem c10_non_video_single_file :
    ∀ (path : String) (env : VideoEnv), IsVideoFile path = false →
      videoSummarySingleFile path env
        = { warnedNotVideo := true, filesCreated := 0, chunksProcessed := 0,
            returnedNil := true, exitedFatal := false } := by
  intro path env h
  unfold videoSummarySingleFile
  rw [h]
  simp

/-- Witness for C10: a .txt file is warned about and skipped even though
every downstream step would have succeeded. -/
theorem c10_non_video_single_file_witness :
    videoSummarySingleFile "/videos/notes.txt" envGood
      = { warnedNotVideo := true, filesCreated := 0, chunksProcessed := 0,
          returnedNil := true, exitedFatal := false } :=
  c10_non_video_single_file "/videos/notes.txt" envGood (by decide)

end VideoSummaryGo
